import Mathlib

set_option maxRecDepth 8000

/-!
Shallow embedding of the go-micro dynamic router and its etcd registry
adapter (router/default.go, router/route.go, the etcd registry file and
its watcher), together with proofs about the embedded operations.

Go maps are modelled as association lists with Go assignment/delete
semantics; the etcd client is modelled as an oracle record describing the
replies the store gives to one call, and each adapter operation returns
the updated cache, the trace of store operations it issued, and its
result.
-/

namespace GoMicro

/-- Association list read, modelling a Go map read (`v, ok := m[k]`). -/
def alookup {α β : Type} [DecidableEq α] : List (α × β) → α → Option β
  | [], _ => none
  | (k, v) :: rest, key => if k = key then some v else alookup rest key

/-- Association list write, modelling a Go map assignment (`m[k] = v`). -/
def ainsert {α β : Type} [DecidableEq α] : List (α × β) → α → β → List (α × β)
  | [], key, v => [(key, v)]
  | (k, w) :: rest, key, v =>
    if k = key then (key, v) :: rest else (k, w) :: ainsert rest key v

/-- Association list removal, modelling Go `delete(m, k)`. -/
def aerase {α β : Type} [DecidableEq α] (m : List (α × β)) (key : α) : List (α × β) :=
  m.filter (fun p => decide (p.1 ≠ key))

/-- Read through a two-level (domain-keyed) map of maps. -/
def lookup2 {β : Type} (m : List (String × List (String × β))) (d k : String) : Option β :=
  match alookup m d with
  | none => none
  | some mm => alookup mm k

/-- Write through a two-level (domain-keyed) map of maps. -/
def insert2 {β : Type} (m : List (String × List (String × β))) (d k : String) (v : β) :
    List (String × List (String × β)) :=
  ainsert m d (ainsert ((alookup m d).getD []) k v)

/-- Create the inner map for a domain when absent
(`if _, ok := m[d]; !ok { m[d] = make(...) }`). -/
def ensureDomain {β : Type} (m : List (String × List (String × β))) (d : String) :
    List (String × List (String × β)) :=
  match alookup m d with
  | some _ => m
  | none => ainsert m d []

/-- UTF-8 bytes of one character, modelling Go's byte-slice view of a string. -/
def charUtf8 (c : Char) : List Nat :=
  let n := c.toNat
  if n < 128 then [n]
  else if n < 2048 then [192 ||| (n >>> 6), 128 ||| (n &&& 63)]
  else if n < 65536 then
    [224 ||| (n >>> 12), 128 ||| ((n >>> 6) &&& 63), 128 ||| (n &&& 63)]
  else
    [240 ||| (n >>> 18), 128 ||| ((n >>> 12) &&& 63),
     128 ||| ((n >>> 6) &&& 63), 128 ||| (n &&& 63)]

/-- Bytes of a Go string. -/
def strBytes (s : String) : List Nat := (s.data.map charUtf8).flatten

/-- Offset basis of 64-bit FNV hashing. -/
def fnvOffset : Nat := 14695981039346656037

/-- Prime of 64-bit FNV hashing. -/
def fnvPrime : Nat := 1099511628211

/-- One byte of 64-bit FNV-1 as implemented by Go fnv.New64: multiply, then xor. -/
def fnv64Step (h b : Nat) : Nat := ((h * fnvPrime) % 2 ^ 64) ^^^ b

/-- 64-bit FNV-1 of a byte sequence (Go fnv.New64 / Sum64). -/
def fnv64 (bs : List Nat) : Nat := bs.foldl fnv64Step fnvOffset

/-- Modelled from the spec: one byte of 64-bit FNV-1a (xor, then multiply), the
variant the spec names for route hashing; Go fnv.New64a. -/
def fnv64aStep (h b : Nat) : Nat := ((h ^^^ b) * fnvPrime) % 2 ^ 64

/-- Modelled from the spec: 64-bit FNV-1a of a byte sequence. -/
def fnv64a (bs : List Nat) : Nat := bs.foldl fnv64aStep fnvOffset

/-- Route is network route (router/route.go). -/
structure Route where
  Service : String
  Version : String
  Address : String
  Gateway : String
  Network : String
  Router : String
  Link : String
  Metric : Int
  Metadata : List (String × String)
  deriving DecidableEq

/-- Hash returns route hash sum (router/route.go): an fnv.New64 digest of the
byte concatenation of the seven identity fields. -/
def Route.Hash (r : Route) : Nat :=
  fnv64 (strBytes
    (r.Service ++ r.Version ++ r.Address ++ r.Gateway ++ r.Network ++ r.Router ++ r.Link))

/-- Modelled from the spec: the route hash the spec prescribes, an FNV-1a digest
over the same concatenation, used to compare the spec's words with the code. -/
def specFnv1aRouteHash (r : Route) : Nat :=
  fnv64a (strBytes
    (r.Service ++ r.Version ++ r.Address ++ r.Gateway ++ r.Network ++ r.Router ++ r.Link))

/-- Modelled from the spec: the advertising strategies AdvertiseAll,
AdvertiseBest, AdvertiseLocal, AdvertiseNone (router options, not under src). -/
inductive Strategy
  | advertiseAll
  | advertiseBest
  | advertiseLocal
  | advertiseNone
  deriving DecidableEq

/-- Modelled from the spec: router table event types Create, Update, Delete
(router type declarations, not under src). -/
inductive EventType
  | create
  | update
  | delete
  deriving DecidableEq

/-- Modelled from the spec: EventType.String, the lower-case action strings
consumed by manageRoute. -/
def EventType.toStr : EventType → String
  | .create => "create"
  | .update => "update"
  | .delete => "delete"

/-- Modelled from the spec: a table event carries a type, a timestamp and a
route (router type declarations, not under src). -/
structure REvent where
  etype : EventType
  timestamp : Nat
  route : Route
  deriving DecidableEq

/-- Modelled from the spec: an advert batches events with the origin router id
(router type declarations, not under src). -/
structure RAdvert where
  id : String
  ttl : Nat
  timestamp : Nat
  events : List REvent
  deriving DecidableEq

/-- One inbound table event in advertiseEvents (router/default.go, eventChan
case). When an entry for the hash already exists the source runs
`if ev.Type != e.Type { ev = e }`, which writes a local variable that is
never read again, so the map entry is left unchanged. -/
def coalesceStep (adv : Strategy) (m : List (Nat × REvent)) (e : REvent) :
    List (Nat × REvent) :=
  if adv = .advertiseNone then m
  else if adv = .advertiseLocal ∧ e.route.Link ≠ "local" then m
  else
    match alookup m (Route.Hash e.route) with
    | none => ainsert m (Route.Hash e.route) e
    | some _ => m

/-- One ticker firing in advertiseEvents (router/default.go): pending entries
passing the strategy filter are copied out and deleted from the map, entries
failing it stay pending, and with AdvertiseNone nothing happens at all.
Iteration follows the association-list order. -/
def coalesceTick (adv : Strategy) (m : List (Nat × REvent)) :
    List REvent × List (Nat × REvent) :=
  if adv = .advertiseNone then ([], m)
  else
    ((m.filter (fun p => decide ¬(adv = .advertiseLocal ∧ p.2.route.Link ≠ "local"))).map
        Prod.snd,
     m.filter (fun p => decide (adv = .advertiseLocal ∧ p.2.route.Link ≠ "local")))

/-- Errors surfaced by the routing table. -/
inductive TableErr
  | duplicateRoute
  | routeNotFound
  deriving DecidableEq

/-- Modelled from the spec: Table.Create inserts by (service, hash) and fails
with DuplicateRoute when that key already exists (table code not under src). -/
def tableCreate (t : List Route) (r : Route) : Except TableErr (List Route) :=
  if t.any (fun x => decide (x.Service = r.Service ∧ x.Hash = r.Hash)) then
    .error .duplicateRoute
  else .ok (t ++ [r])

/-- Modelled from the spec: Table.Delete removes by (service, hash) and fails
with RouteNotFound when absent (table code not under src). -/
def tableDelete (t : List Route) (r : Route) : Except TableErr (List Route) :=
  if t.any (fun x => decide (x.Service = r.Service ∧ x.Hash = r.Hash)) then
    .ok (t.filter (fun x => decide ¬(x.Service = r.Service ∧ x.Hash = r.Hash)))
  else .error .routeNotFound

/-- Modelled from the spec: Table.Update upserts by (service, hash) (table code
not under src). -/
def tableUpdate (t : List Route) (r : Route) : Except TableErr (List Route) :=
  if t.any (fun x => decide (x.Service = r.Service ∧ x.Hash = r.Hash)) then
    .ok (t.map (fun x => if x.Service = r.Service ∧ x.Hash = r.Hash then r else x))
  else .ok (t ++ [r])

/-- Errors produced by the router when applying routes. -/
inductive RouterErr
  | addFailed
  | deleteFailed
  | updateFailed
  | unknownAction
  deriving DecidableEq

/-- manageRoute applies action on a given route (router/default.go), tolerating
a duplicate on create and a missing route on delete. -/
def manageRoute (t : List Route) (route : Route) (action : String) :
    Except RouterErr (List Route) :=
  if action = "create" then
    match tableCreate t route with
    | .ok t2 => .ok t2
    | .error .duplicateRoute => .ok t
    | .error _ => .error .addFailed
  else if action = "delete" then
    match tableDelete t route with
    | .ok t2 => .ok t2
    | .error .routeNotFound => .ok t
    | .error _ => .error .deleteFailed
  else if action = "update" then
    match tableUpdate t route with
    | .ok t2 => .ok t2
    | .error _ => .error .updateFailed
  else .error .unknownAction

/-- Insertion into a timestamp-sorted event list. -/
def insertByTs (e : REvent) : List REvent → List REvent
  | [] => [e]
  | x :: xs => if e.timestamp < x.timestamp then e :: x :: xs else x :: insertByTs e xs

/-- Process's sort.Slice by Timestamp.Before, modelled as an insertion sort. -/
def sortByTs (l : List REvent) : List REvent := l.foldr insertByTs []

/-- Event loop of Process (router/default.go): skip events originated at this
router, apply the rest in order, aborting on the first intolerable error. -/
def applyEvents (rid : String) : List REvent → List Route → Except RouterErr (List Route)
  | [], t => .ok t
  | e :: rest, t =>
    if e.route.Router = rid then applyEvents rid rest t
    else
      match manageRoute t e.route e.etype.toStr with
      | .error er => .error er
      | .ok t2 => applyEvents rid rest t2

/-- Event application with no origin filtering, used to state exactly which
events Process skips. -/
def applyAll : List REvent → List Route → Except RouterErr (List Route)
  | [], t => .ok t
  | e :: rest, t =>
    match manageRoute t e.route e.etype.toStr with
    | .error er => .error er
    | .ok t2 => applyAll rest t2

/-- Process updates the routing table using the advertised values
(router/default.go): copy and sort the events by timestamp, then apply them,
skipping any event whose route originated at this router. -/
def process (rid : String) (a : RAdvert) (t : List Route) :
    Except RouterErr (List Route) :=
  applyEvents rid (sortByTs a.events) t

/-- Modelled from the spec: a registry node (registry contract types, not under
src). -/
structure Node where
  Id : String
  Address : String
  Metadata : List (String × String)
  deriving DecidableEq

/-- Modelled from the spec: a registry service; endpoints are kept opaque
(registry contract types, not under src). -/
structure Service where
  Name : String
  Version : String
  Metadata : List (String × String)
  Endpoints : List String
  Nodes : List Node
  deriving DecidableEq

/-- Key namespace root of the etcd adapter (the constant named prefix). -/
def basePath : String := "/platform"

/-- Default registry domain. -/
def defaultDomain : String := "inf"

/-- Modelled from the spec: registry.WildcardDomain, the distinguished
wildcard domain name (registry contract, not under src). -/
def wildcardDomain : String := "*"

/-- path.Join of two segments, valid for the already clean segments the adapter
joins. -/
def pathJoin (a b : String) : String :=
  if a = "" then b else if b = "" then a else a ++ "/" ++ b

/-- strings.Replace(s, "/", "-", -1). -/
def slashToDash (s : String) : String :=
  String.mk (s.data.map (fun c => if c = '/' then '-' else c))

/-- Service name serialization used in keys. -/
def serializeServiceName (s : String) : String := slashToDash s

/-- Key namespace of one domain (the function named prefixWithDomain). -/
def domainPath (domain : String) : String := pathJoin basePath domain

/-- Key of one service slot. -/
def servicePath (domain s : String) : String :=
  pathJoin (domainPath domain) (serializeServiceName s)

/-- Key of one node. -/
def nodePath (domain s id : String) : String :=
  pathJoin (pathJoin (domainPath domain) (slashToDash s)) (slashToDash id)

/-- path.Split: the directory portion of a key, up to and including the final
slash. -/
def pathSplitDir (s : String) : String :=
  String.mk (((s.data.reverse).dropWhile (fun c => decide (c ≠ '/'))).reverse)

/-- strings.Contains. -/
def strContains (s sub : String) : Bool :=
  (List.range (s.data.length + 1)).any
    (fun i => decide ((s.data.drop i).take sub.data.length = sub.data))

/-- Domain defaulting every adapter operation applies to its options. -/
def withDefaultDomain (d : String) : String := if d = "" then defaultDomain else d

/-- One key-value of an etcd range response; the value field holds the decoded
service, none when decoding fails. -/
structure KV where
  key : String
  value : Option Service
  deriving DecidableEq

/-- Errors of the embedded adapter operations. -/
inductive RegErr
  | requireOneNode
  | getErr
  | keepAliveErr
  | hashErr
  | grantErr
  | putErr
  | deleteErr
  | notFound
  | watchAcrossDomains
  deriving DecidableEq

/-- Grouping loop of GetService (etcd registry file): the group is read under
the directory portion of the key, but a fresh group is written under the
version string (`versions[s.Version] = s`), and the nodes of the decoded value
are appended to whichever service the read found or the write created. -/
def getServiceGroup (results : List KV) : List (String × Service) :=
  results.foldl
    (fun versions n =>
      let key := pathSplitDir n.key
      match n.value with
      | none => versions
      | some sn =>
        match alookup versions key with
        | none =>
          ainsert versions sn.Version
            { Name := sn.Name, Version := sn.Version, Metadata := sn.Metadata,
              Endpoints := sn.Endpoints, Nodes := sn.Nodes }
        | some s => ainsert versions key { s with Nodes := s.Nodes ++ sn.Nodes })
    []

/-- Options of GetService. -/
structure GetOptions where
  Domain : String
  deriving DecidableEq

/-- GetService (etcd registry file) applied to the raw range response rsp: a
wildcard query keeps the keys containing "/name/", a domain query uses the
response as is; empty results give ErrNotFound, anything else is grouped. -/
def GetService (name : String) (opts : GetOptions) (rsp : List KV) :
    Except RegErr (List Service) :=
  let domain := withDefaultDomain opts.Domain
  let results :=
    if domain = wildcardDomain then
      rsp.filter (fun kv => strContains kv.key ("/" ++ serializeServiceName name ++ "/"))
    else rsp
  if results = [] then .error .notFound
  else .ok ((getServiceGroup results).map Prod.snd)

/-- The adapter's two cache maps, both grouped by domain. -/
structure RegCache where
  register : List (String × List (String × Nat))
  leases : List (String × List (String × Int))
  deriving DecidableEq

/-- Store operations an adapter call can issue, in order. -/
inductive EtcdOp
  | get (key : String)
  | keepAlive (lease : Int)
  | grant (ttlSeconds : Int)
  | put (key : String) (value : Service) (lease : Option Int)
  | del (key : String)
  deriving DecidableEq

/-- Outcome of a KeepAliveOnce call. -/
inductive KAResult
  | ok
  | leaseNotFound
  | err
  deriving DecidableEq

/-- One key-value of the Get response consulted for lease recovery. -/
structure KVL where
  lease : Int
  value : Option Service
  deriving DecidableEq

/-- Replies the etcd client gives to the calls of one registerNode run. -/
structure RegisterEnv where
  getResult : Except Unit (List KVL)
  keepAlive : KAResult
  hashNode : Node → Option Nat
  grantResult : Except Unit Int
  putResult : Except Unit Unit

/-- Options of Register. -/
structure RegisterOptions where
  Domain : String
  TTLSeconds : Int
  deriving DecidableEq

/-- Lease-recovery loop of registerNode over the Get response: the running
lease id follows every kv holding a positive lease, kvs that fail to decode or
hash are skipped, and the first fully usable kv ends the loop with its hash. -/
def scanKvs (env : RegisterEnv) : List KVL → Int → Int × Option Nat
  | [], lid => (lid, none)
  | kv :: rest, lid =>
    if 0 < kv.lease then
      match kv.value with
      | none => scanKvs env rest kv.lease
      | some srv =>
        match srv.Nodes with
        | [] => scanKvs env rest kv.lease
        | n0 :: _ =>
          match env.hashNode n0 with
          | none => scanKvs env rest kv.lease
          | some h => (kv.lease, some h)
    else scanKvs env rest lid

/-- Write phase of registerNode: Grant only when a positive TTL was requested,
Put the single-node service, then record hash and lease in the caches. -/
def registerNodeWrite (e : RegCache) (env : RegisterEnv) (opts : RegisterOptions)
    (domain nodeKey key : String) (ops : List EtcdOp) (h : Nat) (service : Service) :
    RegCache × List EtcdOp × Except RegErr Unit :=
  if 0 < opts.TTLSeconds then
    match env.grantResult with
    | .error _ => (e, ops ++ [.grant opts.TTLSeconds], .error .grantErr)
    | .ok lid =>
      match env.putResult with
      | .error _ =>
        (e, ops ++ [.grant opts.TTLSeconds, .put key service (some lid)], .error .putErr)
      | .ok _ =>
        ({ register := insert2 e.register domain nodeKey h,
           leases := insert2 e.leases domain nodeKey lid },
         ops ++ [.grant opts.TTLSeconds, .put key service (some lid)], .ok ())
  else
    match env.putResult with
    | .error _ => (e, ops ++ [.put key service none], .error .putErr)
    | .ok _ =>
      ({ e with register := insert2 e.register domain nodeKey h },
       ops ++ [.put key service none], .ok ())

/-- Unchanged-node check of registerNode: hash the node, and when the cached
hash matches and the lease renewal did not report the lease missing, return
without writing. -/
def registerNodeCheck (e : RegCache) (env : RegisterEnv) (s1 : Service) (node : Node)
    (opts : RegisterOptions) (domain nodeKey key : String) (ops : List EtcdOp)
    (leaseNotFound : Bool) : RegCache × List EtcdOp × Except RegErr Unit :=
  match env.hashNode node with
  | none => (e, ops, .error .hashErr)
  | some h =>
    if lookup2 e.register domain nodeKey = some h ∧ leaseNotFound = false then
      (e, ops, .ok ())
    else
      registerNodeWrite e env opts domain nodeKey key ops h
        { Name := s1.Name, Version := s1.Version, Metadata := s1.Metadata,
          Endpoints := s1.Endpoints, Nodes := [node] }

/-- Renewal phase of registerNode: with a known lease, one KeepAliveOnce; a
missing lease marks re-registration, any other failure aborts. -/
def registerNodeRenew (e : RegCache) (env : RegisterEnv) (s1 : Service) (node : Node)
    (opts : RegisterOptions) (domain nodeKey key : String) (leaseID : Int)
    (ops : List EtcdOp) : RegCache × List EtcdOp × Except RegErr Unit :=
  if 0 < leaseID then
    match env.keepAlive with
    | .err => (e, ops ++ [.keepAlive leaseID], .error .keepAliveErr)
    | .ok =>
      registerNodeCheck e env s1 node opts domain nodeKey key
        (ops ++ [.keepAlive leaseID]) false
    | .leaseNotFound =>
      registerNodeCheck e env s1 node opts domain nodeKey key
        (ops ++ [.keepAlive leaseID]) true
  else registerNodeCheck e env s1 node opts domain nodeKey key ops false

/-- registerNode (etcd registry file): domain defaulting, domain metadata
stamping, cache bootstrap through a serializable Get when the lease is not
cached, lease renewal, the unchanged-node skip, and the write phase. -/
def registerNode (e : RegCache) (env : RegisterEnv) (s : Service) (node : Node)
    (opts : RegisterOptions) : RegCache × List EtcdOp × Except RegErr Unit :=
  if s.Nodes = [] then (e, [], .error .requireOneNode)
  else
    let domain := withDefaultDomain opts.Domain
    let s1 : Service := { s with Metadata := ainsert s.Metadata "domain" domain }
    let e1 : RegCache :=
      { register := ensureDomain e.register domain, leases := ensureDomain e.leases domain }
    let nodeKey := s1.Name ++ node.Id
    let key := nodePath domain s1.Name node.Id
    match lookup2 e1.leases domain nodeKey with
    | some lid => registerNodeRenew e1 env s1 node opts domain nodeKey key lid []
    | none =>
      match env.getResult with
      | .error _ => (e1, [.get key], .error .getErr)
      | .ok kvs =>
        match scanKvs env kvs 0 with
        | (lid, none) => registerNodeRenew e1 env s1 node opts domain nodeKey key lid [.get key]
        | (lid, some h) =>
          registerNodeRenew
            { register := insert2 e1.register domain nodeKey h,
              leases := insert2 e1.leases domain nodeKey lid }
            env s1 node opts domain nodeKey key lid [.get key]

/-- Node loop of Register: every node is attempted, gerr keeps the error of
the latest failing node. -/
def registerLoop (env : Nat → RegisterEnv) (s : Service) (opts : RegisterOptions) :
    List Node → Nat → RegCache → RegCache × List EtcdOp × Option RegErr
  | [], _, e => (e, [], none)
  | node :: rest, i, e =>
    let r := registerNode e (env i) s node opts
    let g := registerLoop env s opts rest (i + 1) r.1
    (g.1, r.2.1 ++ g.2.1,
      match g.2.2 with
      | some er => some er
      | none =>
        match r.2.2 with
        | .error er => some er
        | .ok _ => none)

/-- Trace of the per-node registerNode calls Register makes: each node's store
operations and result, in node order, threading the cache exactly as Register
does. -/
def registerRuns (env : Nat → RegisterEnv) (s : Service) (opts : RegisterOptions) :
    List Node → Nat → RegCache → List (List EtcdOp × Except RegErr Unit)
  | [], _, _ => []
  | node :: rest, i, e =>
    let r := registerNode e (env i) s node opts
    (r.2.1, r.2.2) :: registerRuns env s opts rest (i + 1) r.1

/-- Latest error in a list of per-node results, none when every node
succeeded. -/
def lastError : List (Except RegErr Unit) → Option RegErr
  | [] => none
  | r :: rs =>
    match lastError rs with
    | some er => some er
    | none =>
      match r with
      | .error er => some er
      | .ok _ => none

/-- Register (etcd registry file): reject a service without nodes, then
register each node individually, returning the latest error if any node
failed. -/
def Register (e : RegCache) (env : Nat → RegisterEnv) (s : Service)
    (opts : RegisterOptions) : RegCache × List EtcdOp × Except RegErr Unit :=
  if s.Nodes = [] then (e, [], .error .requireOneNode)
  else
    let g := registerLoop env s opts s.Nodes 0 e
    (g.1, g.2.1,
      match g.2.2 with
      | some er => .error er
      | none => .ok ())

/-- Outcome the store gives one Delete call. -/
inductive DelResult
  | ok
  | err
  deriving DecidableEq

/-- Options of Deregister. -/
structure DeregisterOptions where
  Domain : String
  deriving DecidableEq

/-- Node loop of Deregister (etcd registry file): per node the source runs
`delete(e.register, s.Name+node.Id)` and `delete(e.leases, s.Name+node.Id)`,
which delete at the domain level of the two-level cache maps, then deletes the
node key from the store, aborting on the first store error. -/
def deregLoop (denv : Nat → DelResult) (name domain : String) :
    List Node → Nat → RegCache → RegCache × List EtcdOp × Except RegErr Unit
  | [], _, e => (e, [], .ok ())
  | node :: rest, i, e =>
    let e2 : RegCache :=
      { register := aerase e.register (name ++ node.Id),
        leases := aerase e.leases (name ++ node.Id) }
    let op := EtcdOp.del (nodePath domain name node.Id)
    match denv i with
    | .err => (e2, [op], .error .deleteErr)
    | .ok =>
      let g := deregLoop denv name domain rest (i + 1) e2
      (g.1, op :: g.2.1, g.2.2)

/-- Deregister (etcd registry file): reject a service without nodes, then run
the node loop under the defaulted domain. -/
def Deregister (e : RegCache) (denv : Nat → DelResult) (s : Service)
    (opts : DeregisterOptions) : RegCache × List EtcdOp × Except RegErr Unit :=
  if s.Nodes = [] then (e, [], .error .requireOneNode)
  else deregLoop denv s.Name (withDefaultDomain opts.Domain) s.Nodes 0 e

/-- Options of Watch. -/
structure WatchOptions where
  Domain : String
  Service : String
  deriving DecidableEq

/-- newEtcdWatcher (etcd watcher file): a service watch across the wildcard
domain is rejected before any watch stream is opened; every other combination
yields a watcher, modelled by the watch path it opens. -/
def newEtcdWatcher (wo0 : WatchOptions) : Except RegErr String :=
  let dom := withDefaultDomain wo0.Domain
  if dom = wildcardDomain then
    if wo0.Service ≠ "" then .error .watchAcrossDomains else .ok basePath
  else if wo0.Service ≠ "" then .ok (servicePath dom wo0.Service ++ "/")
  else .ok basePath

/-! Concrete inputs used by witnesses and counterexamples. -/

/-- Route whose only non-empty identity field is Service = "a". -/
def rSvcA : Route :=
  { Service := "a", Version := "", Address := "", Gateway := "", Network := "",
    Router := "", Link := "", Metric := 0, Metadata := [] }

/-- Route with Service "s", identical to rMet5 on the seven identity fields. -/
def rMet1 : Route :=
  { Service := "s", Version := "v", Address := "a", Gateway := "g", Network := "n",
    Router := "r", Link := "local", Metric := 1, Metadata := [] }

/-- Same identity fields as rMet1, different metric and metadata. -/
def rMet5 : Route :=
  { Service := "s", Version := "v", Address := "a", Gateway := "g", Network := "n",
    Router := "r", Link := "local", Metric := 5, Metadata := [("weight", "2")] }

/-- Route with Service "ab" and Version "c". -/
def rAB : Route :=
  { Service := "ab", Version := "c", Address := "", Gateway := "", Network := "",
    Router := "", Link := "", Metric := 0, Metadata := [] }

/-- Route with Service "a" and Version "bc": same concatenation as rAB. -/
def rA_BC : Route :=
  { Service := "a", Version := "bc", Address := "", Gateway := "", Network := "",
    Router := "", Link := "", Metric := 0, Metadata := [] }

/-- Route with Version "ab" and Address "c" under service "s". -/
def rVerAB : Route :=
  { Service := "s", Version := "ab", Address := "c", Gateway := "", Network := "",
    Router := "", Link := "", Metric := 0, Metadata := [] }

/-- Route with Version "a" and Address "bc" under service "s": same
concatenation as rVerAB. -/
def rVerA : Route :=
  { Service := "s", Version := "a", Address := "bc", Gateway := "", Network := "",
    Router := "", Link := "", Metric := 0, Metadata := [] }

/-- Route flapping in the coalescer example. -/
def rFlap : Route :=
  { Service := "svc", Version := "", Address := "10.0.0.1:80", Gateway := "",
    Network := "inf", Router := "r1", Link := "local", Metric := 1, Metadata := [] }

/-- Create event for rFlap. -/
def evFlapCreate : REvent := { etype := .create, timestamp := 1, route := rFlap }

/-- Delete event for rFlap, arriving within the same tick. -/
def evFlapDelete : REvent := { etype := .delete, timestamp := 2, route := rFlap }

/-- Route originated at router r1. -/
def rOwn : Route :=
  { Service := "x", Version := "", Address := "a1", Gateway := "", Network := "n",
    Router := "r1", Link := "local", Metric := 1, Metadata := [] }

/-- Advert from a peer whose events all carry r1-originated routes. -/
def advOwn : RAdvert :=
  { id := "r2", ttl := 120, timestamp := 0,
    events := [{ etype := .create, timestamp := 0, route := rOwn },
               { etype := .delete, timestamp := 1, route := rOwn }] }

/-- First registry node of the GetService example. -/
def nodeA : Node := { Id := "n1", Address := "10.0.0.1:8080", Metadata := [] }

/-- Second registry node of the GetService example. -/
def nodeB : Node := { Id := "n2", Address := "10.0.0.2:8080", Metadata := [] }

/-- Service value stored under the first node key. -/
def svcKV1 : Service :=
  { Name := "svc", Version := "1.0", Metadata := [], Endpoints := [], Nodes := [nodeA] }

/-- Service value stored under the second node key. -/
def svcKV2 : Service :=
  { Name := "svc", Version := "1.0", Metadata := [], Endpoints := [], Nodes := [nodeB] }

/-- KV of nodeA in domain inf. -/
def kvSame1 : KV := { key := "/platform/inf/svc/n1", value := some svcKV1 }

/-- KV of nodeB in the same directory as kvSame1. -/
def kvSame2 : KV := { key := "/platform/inf/svc/n2", value := some svcKV2 }

/-- Service holding only nodeB, the value GetService actually returns in the
grouping examples. -/
def svcOnlyB : Service :=
  { Name := "svc", Version := "1.0", Metadata := [], Endpoints := [], Nodes := [nodeB] }

/-- KV of nodeA in domain dom1. -/
def kvDomA : KV := { key := "/platform/dom1/svc/n1", value := some svcKV1 }

/-- KV of nodeB in domain dom2. -/
def kvDomB : KV := { key := "/platform/dom2/svc/n2", value := some svcKV2 }

/-- Node of the unchanged-registration example. -/
def nodeU : Node := { Id := "n1", Address := "10.0.0.1:80", Metadata := [] }

/-- Service of the unchanged-registration example. -/
def sU : Service :=
  { Name := "svc", Version := "1", Metadata := [], Endpoints := [], Nodes := [nodeU] }

/-- Cache already holding hash 5 and lease 9 for svc/n1 in domain inf. -/
def cacheU : RegCache :=
  { register := [("inf", [("svcn1", 5)])], leases := [("inf", [("svcn1", 9)])] }

/-- Store replies where the keepalive succeeds and the node hashes to 5. -/
def envU : RegisterEnv :=
  { getResult := .ok [], keepAlive := .ok, hashNode := fun _ => some 5,
    grantResult := .ok 1, putResult := .ok () }

/-- Cache holding register hash 42 and lease 7 for svc/n1 in domain inf. -/
def cacheD : RegCache :=
  { register := [("inf", [("svcn1", 42)])], leases := [("inf", [("svcn1", 7)])] }

/-- Node being deregistered. -/
def nodeD : Node := { Id := "n1", Address := "1.1.1.1:1", Metadata := [] }

/-- Service being deregistered. -/
def sDereg : Service :=
  { Name := "svc", Version := "1.0", Metadata := [], Endpoints := [], Nodes := [nodeD] }

/-- Service without nodes. -/
def sNoNodes : Service :=
  { Name := "svc", Version := "1", Metadata := [], Endpoints := [], Nodes := [] }

/-- Empty adapter cache. -/
def emptyCache : RegCache := { register := [], leases := [] }

/-- First node of the two-node Register example. -/
def nodeW1 : Node := { Id := "n1", Address := "a1", Metadata := [] }

/-- Second node of the two-node Register example. -/
def nodeW2 : Node := { Id := "n2", Address := "a2", Metadata := [] }

/-- Two-node service whose registrations will both fail. -/
def sTwo : Service :=
  { Name := "svc", Version := "1", Metadata := [], Endpoints := [], Nodes := [nodeW1, nodeW2] }

/-- Store replies whose node hashing always fails. -/
def envFailBoth : Nat → RegisterEnv := fun _ =>
  { getResult := .ok [], keepAlive := .ok, hashNode := fun _ => none,
    grantResult := .ok 1, putResult := .ok () }

/-- Register options of the two-node example. -/
def optsW : RegisterOptions := { Domain := "inf", TTLSeconds := 0 }

/-! Helper lemmas. -/

theorem alookup_domain_of_lookup2 {β : Type} {m : List (String × List (String × β))}
    {d k : String} {v : β} (h : lookup2 m d k = some v) :
    ∃ mm, alookup m d = some mm := by
  unfold lookup2 at h
  cases hm : alookup m d with
  | none => rw [hm] at h; simp at h
  | some mm => exact ⟨mm, rfl⟩

theorem ensureDomain_eq_self {β : Type} {m : List (String × List (String × β))}
    {d : String} {mm : List (String × β)} (h : alookup m d = some mm) :
    ensureDomain m d = m := by
  unfold ensureDomain
  rw [h]

theorem mem_insertByTs (e x : REvent) :
    ∀ l : List REvent, x ∈ insertByTs e l ↔ x = e ∨ x ∈ l
  | [] => by simp [insertByTs]
  | y :: ys => by
    simp only [insertByTs]
    by_cases h : e.timestamp < y.timestamp
    · simp [h, List.mem_cons]
    · simp only [h, if_false, List.mem_cons, mem_insertByTs e x ys]
      tauto

theorem mem_sortByTs (x : REvent) : ∀ l : List REvent, x ∈ sortByTs l ↔ x ∈ l
  | [] => by simp [sortByTs]
  | y :: ys => by
    have hy : sortByTs (y :: ys) = insertByTs y (sortByTs ys) := rfl
    rw [hy, mem_insertByTs y x (sortByTs ys), mem_sortByTs x ys]
    simp [List.mem_cons]

theorem applyEvents_all_skip (rid : String) :
    ∀ (l : List REvent) (t : List Route),
      (∀ e ∈ l, e.route.Router = rid) → applyEvents rid l t = Except.ok t
  | [], _, _ => rfl
  | e :: rest, t, h => by
    have he : e.route.Router = rid := h e (List.mem_cons_self e rest)
    simp only [applyEvents, if_pos he]
    exact applyEvents_all_skip rid rest t fun x hx => h x (List.mem_cons_of_mem e hx)

theorem applyEvents_eq_filter (rid : String) :
    ∀ (l : List REvent) (t : List Route),
      applyEvents rid l t
        = applyAll (l.filter fun e => decide (e.route.Router ≠ rid)) t
  | [], _ => rfl
  | e :: rest, t => by
    by_cases he : e.route.Router = rid
    · have hfilter :
          (e :: rest).filter (fun x => decide (x.route.Router ≠ rid))
            = rest.filter (fun x => decide (x.route.Router ≠ rid)) := by
        simp [List.filter_cons, he]
      rw [hfilter]
      simp only [applyEvents, if_pos he]
      exact applyEvents_eq_filter rid rest t
    · have hfilter :
          (e :: rest).filter (fun x => decide (x.route.Router ≠ rid))
            = e :: rest.filter (fun x => decide (x.route.Router ≠ rid)) := by
        simp [List.filter_cons, he]
      rw [hfilter]
      simp only [applyEvents, if_neg he]
      unfold applyAll
      cases manageRoute t e.route e.etype.toStr with
      | error er => rfl
      | ok t2 => exact applyEvents_eq_filter rid rest t2

theorem registerLoop_spec (env : Nat → RegisterEnv) (s : Service) (opts : RegisterOptions) :
    ∀ (ns : List Node) (i : Nat) (e : RegCache),
      (registerLoop env s opts ns i e).2.2
          = lastError ((registerRuns env s opts ns i e).map Prod.snd)
        ∧ (registerLoop env s opts ns i e).2.1
          = ((registerRuns env s opts ns i e).map Prod.fst).flatten
        ∧ (registerRuns env s opts ns i e).length = ns.length
  | [], i, e => by simp [registerLoop, registerRuns, lastError]
  | node :: rest, i, e => by
    have ih := registerLoop_spec env s opts rest (i + 1) (registerNode e (env i) s node opts).1
    refine ⟨?_, ?_, ?_⟩
    · show (match (registerLoop env s opts rest (i + 1)
            (registerNode e (env i) s node opts).1).2.2 with
        | some er => some er
        | none =>
          match (registerNode e (env i) s node opts).2.2 with
          | .error er => some er
          | .ok _ => none)
        = _
      rw [ih.1]
      rfl
    · show (registerNode e (env i) s node opts).2.1
          ++ (registerLoop env s opts rest (i + 1)
                (registerNode e (env i) s node opts).1).2.1
        = _
      rw [ih.2.1]
      rfl
    · show (registerRuns env s opts (node :: rest) i e).length = rest.length + 1
      simp only [registerRuns, List.length_cons, ih.2.2]

theorem lastError_cons (r : Except RegErr Unit) (rs : List (Except RegErr Unit)) :
    lastError (r :: rs)
      = match lastError rs with
        | some er => some er
        | none =>
          match r with
          | .error er => some er
          | .ok _ => none := rfl

theorem lastError_eq_none_iff :
    ∀ rs : List (Except RegErr Unit),
      lastError rs = none ↔ ∀ r ∈ rs, r = Except.ok ()
  | [] => by simp [lastError]
  | r :: rs => by
    have ih := lastError_eq_none_iff rs
    constructor
    · intro h
      cases hrs : lastError rs with
      | some er =>
        rw [lastError_cons, hrs] at h
        simp at h
      | none =>
        intro x hx
        rw [lastError_cons, hrs] at h
        rcases List.mem_cons.mp hx with hx1 | hx1
        · subst hx1
          cases x with
          | ok u => cases u; rfl
          | error er => simp at h
        · exact ih.mp hrs x hx1
    · intro hall
      have hr : r = Except.ok () := hall r (List.mem_cons_self r rs)
      have hrs : lastError rs = none :=
        ih.mpr fun x hx => hall x (List.mem_cons_of_mem r hx)
      rw [lastError_cons, hrs, hr]

/-! Claim theorems. -/

/-- C1: the coalescer is meant to replace a pending entry when an event of a
different type arrives for the same hash, so Create then Delete within one
tick should leave one pending Delete; the source instead assigns the
replacement to a dead local variable, so the pending map keeps the Create
entry and the next tick emits that Create. -/
theorem coalesce_keeps_stale_create :
    coalesceStep .advertiseAll (coalesceStep .advertiseAll [] evFlapCreate) evFlapDelete
        = [(Route.Hash rFlap, evFlapCreate)]
      ∧ coalesceTick .advertiseAll [(Route.Hash rFlap, evFlapCreate)]
        = ([evFlapCreate], [])
      ∧ evFlapCreate.etype = EventType.create := by
  exact ⟨rfl, rfl, rfl⟩

/-- C2 counterexample: Route.Hash is not the FNV-1a digest the spec names; on
the route whose concatenated identity fields are the single byte "a" the two
digests differ. -/
theorem route_hash_not_fnv1a : Route.Hash rSvcA ≠ specFnv1aRouteHash rSvcA := by decide

/-- C2 amended: Route.Hash is the 64-bit FNV-1 digest of the concatenation of
the seven identity fields, so routes equal on those fields hash equally, with
Metric and Metadata never influencing the result. -/
theorem route_hash_fnv1_identity (r1 r2 : Route)
    (h : r1.Service = r2.Service ∧ r1.Version = r2.Version ∧ r1.Address = r2.Address ∧
      r1.Gateway = r2.Gateway ∧ r1.Network = r2.Network ∧ r1.Router = r2.Router ∧
      r1.Link = r2.Link) :
    Route.Hash r1
        = fnv64 (strBytes (r1.Service ++ r1.Version ++ r1.Address ++ r1.Gateway ++
            r1.Network ++ r1.Router ++ r1.Link))
      ∧ Route.Hash r1 = Route.Hash r2 := by
  obtain ⟨h1, h2, h3, h4, h5, h6, h7⟩ := h
  refine ⟨rfl, ?_⟩
  unfold Route.Hash
  rw [h1, h2, h3, h4, h5, h6, h7]

/-- C2 witness: two routes identical on the seven identity fields but with
different metric and metadata hash equally. -/
theorem route_hash_fnv1_identity_witness :
    rMet1 ≠ rMet5 ∧ Route.Hash rMet1 = Route.Hash rMet5 :=
  ⟨by decide, (route_hash_fnv1_identity rMet1 rMet5 (by decide)).2⟩

/-- C3: GetService reads groups under the directory portion of the key but
writes them under the version string, so two KVs of the same directory are not
concatenated (the later node overwrites the group) and the same service in two
domains under a wildcard query collapses to one returned service instead of
two. -/
theorem getservice_group_overwritten :
    GetService "svc" { Domain := "inf" } [kvSame1, kvSame2] = Except.ok [svcOnlyB]
      ∧ GetService "svc" { Domain := "*" } [kvDomA, kvDomB] = Except.ok [svcOnlyB] := by
  exact ⟨rfl, rfl⟩

/-- C4: Process applies exactly the events whose route did not originate at
this router, so an advert whose events all carry the router's own id leaves
the table untouched and returns without error. -/
theorem process_skips_own_routes (rid : String) (a : RAdvert) (t : List Route) :
    process rid a t
        = applyAll ((sortByTs a.events).filter fun e => decide (e.route.Router ≠ rid)) t
      ∧ ((∀ e ∈ a.events, e.route.Router = rid) → process rid a t = Except.ok t) := by
  constructor
  · exact applyEvents_eq_filter rid (sortByTs a.events) t
  · intro h
    exact applyEvents_all_skip rid (sortByTs a.events) t
      fun e he => h e ((mem_sortByTs e a.events).mp he)

/-- C4 witness: a two-event advert of r1-originated routes processed by r1
leaves the empty table unchanged. -/
theorem process_skips_own_routes_witness :
    process "r1" advOwn [] = Except.ok [] :=
  (process_skips_own_routes "r1" advOwn []).2 (by decide)

/-- C5: when the cached lease exists, the keepalive succeeds and the cached
hash equals the node's newly computed hash, registerNode returns nil having
issued only the KeepAliveOnce, with no Grant, no Put, and the cache
unchanged. -/
theorem registerNode_unchanged_no_write (e : RegCache) (env : RegisterEnv) (s : Service)
    (node : Node) (opts : RegisterOptions) (lid : Int) (h : Nat)
    (hn : s.Nodes ≠ [])
    (hl : lookup2 e.leases (withDefaultDomain opts.Domain) (s.Name ++ node.Id) = some lid)
    (hpos : 0 < lid)
    (hka : env.keepAlive = KAResult.ok)
    (hh : env.hashNode node = some h)
    (hv : lookup2 e.register (withDefaultDomain opts.Domain) (s.Name ++ node.Id) = some h) :
    registerNode e env s node opts = (e, [EtcdOp.keepAlive lid], Except.ok ()) := by
  obtain ⟨mmL, hmL⟩ := alookup_domain_of_lookup2 hl
  obtain ⟨mmR, hmR⟩ := alookup_domain_of_lookup2 hv
  unfold registerNode registerNodeRenew registerNodeCheck
  rw [if_neg hn]
  simp only [ensureDomain_eq_self hmL, ensureDomain_eq_self hmR, hl, hka, hh, hpos, if_true,
    hv, List.nil_append, and_self, eq_self_iff_true]

/-- C5 witness: re-registering the unchanged svc/n1 node renews lease 9 and
performs no other store operation. -/
theorem registerNode_unchanged_no_write_witness :
    registerNode cacheU envU sU nodeU { Domain := "inf", TTLSeconds := 10 }
      = (cacheU, [EtcdOp.keepAlive 9], Except.ok ()) :=
  registerNode_unchanged_no_write cacheU envU sU nodeU
    { Domain := "inf", TTLSeconds := 10 } 9 5
    (by decide) (by decide) (by decide) rfl rfl (by decide)

/-- C6: Deregister deletes `s.Name+node.Id` at the domain level of the cache
maps, so the entries Register stored under the domain survive: after a
successful Deregister of svc/n1 the register hash and lease cache entries are
still present. -/
theorem deregister_leaves_cache :
    Deregister cacheD (fun _ => DelResult.ok) sDereg { Domain := "inf" }
        = (cacheD, [EtcdOp.del "/platform/inf/svc/n1"], Except.ok ())
      ∧ lookup2 cacheD.register "inf" ("svc" ++ "n1") = some 42
      ∧ lookup2 cacheD.leases "inf" ("svc" ++ "n1") = some 7 := by
  exact ⟨rfl, rfl, rfl⟩

/-- C7: creating a registry watcher on the wildcard domain together with a
service is rejected before any stream is opened, and every other combination
of domain and service yields a watcher. -/
theorem watch_wildcard_service_rejected (wo : WatchOptions) :
    ((withDefaultDomain wo.Domain = wildcardDomain ∧ wo.Service ≠ "") →
        newEtcdWatcher wo = Except.error RegErr.watchAcrossDomains)
      ∧ (¬(withDefaultDomain wo.Domain = wildcardDomain ∧ wo.Service ≠ "") →
        ∃ p, newEtcdWatcher wo = Except.ok p) := by
  constructor
  · rintro ⟨hd, hs⟩
    unfold newEtcdWatcher
    rw [if_pos hd, if_pos hs]
  · intro hn
    unfold newEtcdWatcher
    by_cases hd : withDefaultDomain wo.Domain = wildcardDomain
    · have hs : wo.Service = "" := by
        by_contra hs
        exact hn ⟨hd, hs⟩
      rw [if_pos hd, if_neg (by simp [hs])]
      exact ⟨basePath, rfl⟩
    · rw [if_neg hd]
      by_cases hs : wo.Service = ""
      · rw [if_neg (by simp [hs])]
        exact ⟨basePath, rfl⟩
      · rw [if_pos hs]
        exact ⟨servicePath (withDefaultDomain wo.Domain) wo.Service ++ "/", rfl⟩

/-- C7 witness: the wildcard-domain service watch is rejected. -/
theorem watch_wildcard_service_rejected_witness :
    newEtcdWatcher { Domain := "*", Service := "svc" }
      = Except.error RegErr.watchAcrossDomains :=
  (watch_wildcard_service_rejected { Domain := "*", Service := "svc" }).1 (by decide)

/-- C8: a service without nodes is rejected by Register and by Deregister with
the require-one-node error, with no store operation and no cache change. -/
theorem register_deregister_require_node (e : RegCache) (env : Nat → RegisterEnv)
    (denv : Nat → DelResult) (s : Service) (ropts : RegisterOptions)
    (dopts : DeregisterOptions) (hs : s.Nodes = []) :
    Register e env s ropts = (e, [], Except.error RegErr.requireOneNode)
      ∧ Deregister e denv s dopts = (e, [], Except.error RegErr.requireOneNode) := by
  unfold Register Deregister
  rw [if_pos hs, if_pos hs]
  exact ⟨rfl, rfl⟩

/-- C8 witness: the empty-node service is rejected by both operations. -/
theorem register_deregister_require_node_witness :
    Register emptyCache envFailBoth sNoNodes optsW
        = (emptyCache, [], Except.error RegErr.requireOneNode)
      ∧ Deregister emptyCache (fun _ => DelResult.ok) sNoNodes { Domain := "" }
        = (emptyCache, [], Except.error RegErr.requireOneNode) :=
  register_deregister_require_node emptyCache envFailBoth (fun _ => DelResult.ok)
    sNoNodes optsW { Domain := "" } rfl

/-- C9: Register attempts registerNode for every node even after a failure:
the per-node run trace has one entry per node, the returned operation trace is
the concatenation of the per-node traces, the call returns nil exactly when
every node succeeded, and otherwise it returns the error of the last failing
node. -/
theorem register_last_error (e : RegCache) (env : Nat → RegisterEnv) (s : Service)
    (opts : RegisterOptions) (hn : s.Nodes ≠ []) :
    (registerRuns env s opts s.Nodes 0 e).length = s.Nodes.length
      ∧ (Register e env s opts).2.1
        = ((registerRuns env s opts s.Nodes 0 e).map Prod.fst).flatten
      ∧ ((Register e env s opts).2.2 = Except.ok ()
          ↔ ∀ r ∈ (registerRuns env s opts s.Nodes 0 e).map Prod.snd, r = Except.ok ())
      ∧ (∀ er, lastError ((registerRuns env s opts s.Nodes 0 e).map Prod.snd) = some er →
          (Register e env s opts).2.2 = Except.error er) := by
  have hspec := registerLoop_spec env s opts s.Nodes 0 e
  have hreg :
      Register e env s opts
        = ((registerLoop env s opts s.Nodes 0 e).1,
           (registerLoop env s opts s.Nodes 0 e).2.1,
           match (registerLoop env s opts s.Nodes 0 e).2.2 with
           | some er => Except.error er
           | none => Except.ok ()) := by
    unfold Register
    rw [if_neg hn]
  refine ⟨hspec.2.2, ?_, ?_, ?_⟩
  · rw [hreg]
    exact hspec.2.1
  · rw [hreg]
    cases hg : (registerLoop env s opts s.Nodes 0 e).2.2 with
    | some er =>
      constructor
      · intro h
        exact Except.noConfusion h
      · intro hall
        have hnone : lastError ((registerRuns env s opts s.Nodes 0 e).map Prod.snd) = none :=
          (lastError_eq_none_iff _).mpr hall
        rw [hspec.1, hnone] at hg
        exact Option.noConfusion hg
    | none =>
      constructor
      · intro _
        rw [hspec.1] at hg
        exact (lastError_eq_none_iff _).mp hg
      · intro _
        rfl
  · intro er her
    rw [hreg]
    have hsome : (registerLoop env s opts s.Nodes 0 e).2.2 = some er := by
      rw [hspec.1]
      exact her
    rw [hsome]

/-- C9 witness: with both nodes failing to hash, Register still ran both
registerNode calls and returns the hash error of the last node. -/
theorem register_last_error_witness :
    (registerRuns envFailBoth sTwo optsW sTwo.Nodes 0 emptyCache).length
        = sTwo.Nodes.length
      ∧ (Register emptyCache envFailBoth sTwo optsW).2.2 = Except.error RegErr.hashErr :=
  ⟨(register_last_error emptyCache envFailBoth sTwo optsW (by decide)).1,
   (register_last_error emptyCache envFailBoth sTwo optsW (by decide)).2.2.2
     RegErr.hashErr rfl⟩

/-- C10: the hash concatenates the identity fields without separators, so
distinct routes can collide: the rAB/rA_BC pair differs in Service and
Version yet hashes equally, and the rVerAB/rVerA pair under one service even
collides inside the table, where a create of the second is rejected as a
duplicate of the first. -/
theorem route_hash_collision :
    (rAB ≠ rA_BC ∧ Route.Hash rAB = Route.Hash rA_BC)
      ∧ (rVerAB ≠ rVerA ∧ Route.Hash rVerAB = Route.Hash rVerA
          ∧ tableCreate [rVerAB] rVerA = Except.error TableErr.duplicateRoute) := by
  exact ⟨⟨by decide, rfl⟩, ⟨by decide, rfl, rfl⟩⟩

end GoMicro
